import Mathlib

set_option maxHeartbeats 1000000

/-
Verification development for the FarmCore farm-simulation engine
(src/FarmCore-qwen3-coder-480b-T5810-a01.py).

The Python source is shallowly embedded below:
- the `FarmCore` object becomes an explicit state record, mutating methods
  become functions `FarmCore -> FarmCore × OpResult`;
- Python `dict` fields become insertion-ordered association lists;
- the 10×10 grids `crops` / `field_grid` stay lists of lists, with `None`
  cells as `Option.none`;
- Python `int` becomes `Int`; result dictionaries become the `OpResult`
  record with optional fields, mirroring the varying dict keys;
- the asyncio game loop's per-second body (`_update_animals`;
  `_update_crops`) becomes the pure `tick` function; logging and the
  callback notification are I/O sinks with no effect on the core state and
  are dropped;
- CSV loading (`_load_animal_data` / `_load_crop_data`) is embedded over
  an explicit list of raw rows (each field an `Option String`, `None`
  modelling a missing column): a row whose field lookup or `int()`
  conversion fails raises in Python, the surrounding `try`/`except`
  catches it, logs, and returns normally — embedded as the loader
  stopping at the first bad row and keeping the templates inserted so
  far, with a Boolean recording whether every row parsed.
-/

inductive AnimalState
  | IDLE
  | GROWING
  | MATURE
  deriving DecidableEq

inductive CropState
  | EMPTY
  | PLANTED
  | READY
  deriving DecidableEq

structure AnimalTemplate where
  animal : String
  minutes : Int
  seconds : Int
  product : String
  misc1 : String
  misc2 : String
  deriving DecidableEq

structure CropTemplate where
  crop : String
  minutes : Int
  seconds : Int
  misc1 : String
  misc2 : String
  misc3 : String
  deriving DecidableEq

structure AnimalData where
  state : AnimalState
  timer : Int
  template : AnimalTemplate
  deriving DecidableEq

structure CropData where
  state : CropState
  timer : Int
  template : CropTemplate
  deriving DecidableEq

/-- The mutable state of the Python `FarmCore` object. -/
structure FarmCore where
  animals : List (String × List AnimalData)
  crops : List (List (Option CropData))
  field_grid : List (List String)
  animal_templates : List (String × AnimalTemplate)
  crop_templates : List (String × CropTemplate)
  deriving DecidableEq

/-- The `Dict[str, any]` result the Python methods return: `success` and
`message` are always present, the remaining keys only in some branches
(absent key = `none`). `crops` mirrors the `"crops"` key of
`harvest_crops`. -/
structure OpResult where
  success : Bool
  message : String
  count : Option Int := none
  product : Option String := none
  crops : Option (List String) := none
  crop : Option String := none
  deriving DecidableEq

/-- Python `d[k]` / `k in d` on an insertion-ordered dict. -/
def lookupD {α : Type} : List (String × α) → String → Option α
  | [], _ => none
  | p :: rest, k => if p.1 = k then some p.2 else lookupD rest k

/-- Python `d[k] = v` for a key already present: replace the entry (dict
keys are unique, so replacing the first match is exact). -/
def updateAssoc {α : Type} : List (String × α) → String → α → List (String × α)
  | [], _, _ => []
  | p :: rest, k, v => if p.1 = k then (p.1, v) :: rest else p :: updateAssoc rest k v

/-- Python `d[k] = v`: overwrite if present, else append (insertion order). -/
def insertAssoc {α : Type} (d : List (String × α)) (k : String) (v : α) :
    List (String × α) :=
  if (lookupD d k).isSome then updateAssoc d k v else d ++ [(k, v)]

/-- Python `g[y][x]` (grids are indexed row-first throughout the source). -/
def cellGet {α : Type} (g : List (List α)) (y x : Nat) (d : α) : α :=
  (g.getD y []).getD x d

/-- Python `g[y][x] = v`. -/
def cellSet {α : Type} (g : List (List α)) (y x : Nat) (v : α) :
    List (List α) :=
  g.set y ((g.getD y []).set x v)

/-- One raw CSV row as `csv.DictReader` hands it to `_load_animal_data`:
a field is `none` when the column is missing from the source. -/
structure AnimalRow where
  animal : Option String
  minutes : Option String
  seconds : Option String
  product : Option String
  misc1 : Option String
  misc2 : Option String
  deriving DecidableEq

structure CropRow where
  crop : Option String
  minutes : Option String
  seconds : Option String
  misc1 : Option String
  misc2 : Option String
  misc3 : Option String
  deriving DecidableEq

/-- Decimal digit value of a character, `none` for a non-digit. -/
def digitVal (c : Char) : Option Nat :=
  if c.toNat < 48 ∨ 57 < c.toNat then none else some (c.toNat - 48)

def digitsToNat : List Char → Nat → Option Nat
  | [], acc => some acc
  | c :: cs, acc =>
    match digitVal c with
    | some d => digitsToNat cs (acc * 10 + d)
    | none => none

/-- Python `int(s)` on a CSV field: an optional leading minus sign followed
by at least one decimal digit parses; anything else raises `ValueError`
(modelled as `none`). -/
def pyInt (s : String) : Option Int :=
  match s.toList with
  | [] => none
  | '-' :: cs =>
    match cs with
    | [] => none
    | _ => (digitsToNat cs 0).map (fun n => -(n : Int))
  | cs => (digitsToNat cs 0).map (fun n => (n : Int))

/-- Body of the row loop in `_load_animal_data`: `row["minutes"]` raising
`KeyError` or `int(...)` raising `ValueError` is modelled as `none`. -/
def parseAnimalRow (r : AnimalRow) : Option AnimalTemplate :=
  match r.animal, r.minutes, r.seconds, r.product, r.misc1, r.misc2 with
  | some a, some mi, some se, some pr, some m1, some m2 =>
    match pyInt mi, pyInt se with
    | some mv, some sv => some ⟨a, mv, sv, pr, m1, m2⟩
    | _, _ => none
  | _, _, _, _, _, _ => none

def parseCropRow (r : CropRow) : Option CropTemplate :=
  match r.crop, r.minutes, r.seconds, r.misc1, r.misc2, r.misc3 with
  | some c, some mi, some se, some m1, some m2, some m3 =>
    match pyInt mi, pyInt se with
    | some mv, some sv => some ⟨c, mv, sv, m1, m2, m3⟩
    | _, _ => none
  | _, _, _, _, _, _ => none

/-- The `for row in reader` loop of `_load_animal_data`. A bad row raises;
the `except` clause catches, logs, and returns, so loading stops there and
the templates inserted before the bad row survive. The Boolean records
whether the loop finished without raising. -/
def loadAnimalLoop :
    List AnimalRow → List (String × AnimalTemplate) →
    List (String × AnimalTemplate) × Bool
  | [], acc => (acc, true)
  | r :: rest, acc =>
    match parseAnimalRow r with
    | some t => loadAnimalLoop rest (insertAssoc acc t.animal t)
    | none => (acc, false)

def loadCropLoop :
    List CropRow → List (String × CropTemplate) →
    List (String × CropTemplate) × Bool
  | [], acc => (acc, true)
  | r :: rest, acc =>
    match parseCropRow r with
    | some t => loadCropLoop rest (insertAssoc acc t.crop t)
    | none => (acc, false)

/-- `_load_animal_data`: never raises (every exception is caught and only
logged), always yields the templates accumulated before any bad row. -/
def _load_animal_data (rows : List AnimalRow) :
    List (String × AnimalTemplate) :=
  (loadAnimalLoop rows []).1

def _load_crop_data (rows : List CropRow) :
    List (String × CropTemplate) :=
  (loadCropLoop rows []).1

/-- Rows written by `_create_default_barn_csv`. -/
def defaultBarnRows : List AnimalRow :=
  [⟨some "cow", some "0", some "30", some "milk", some "", some ""⟩,
   ⟨some "chicken", some "0", some "20", some "egg", some "", some ""⟩,
   ⟨some "sheep", some "0", some "40", some "wool", some "", some ""⟩]

/-- Rows written by `_create_default_farm_csv`. -/
def defaultFarmRows : List CropRow :=
  [⟨some "wheat", some "0", some "25", some "", some "", some ""⟩,
   ⟨some "corn", some "0", some "35", some "", some "", some ""⟩,
   ⟨some "carrot", some "0", some "15", some "", some "", some ""⟩]

/-- `_initialize_animals`: 6 IDLE slots per known species. -/
def _initialize_animals (ats : List (String × AnimalTemplate)) :
    List (String × List AnimalData) :=
  ats.map (fun p =>
    (p.1, List.replicate 6 { state := AnimalState.IDLE, timer := 0, template := p.2 }))

/-- `FarmCore.__init__` after template loading: empty 10×10 grids, '.'
field cells, pools initialized from the loaded templates. -/
def initFarm (ats : List (String × AnimalTemplate))
    (cts : List (String × CropTemplate)) : FarmCore :=
  { animals := _initialize_animals ats,
    crops := List.replicate 10 (List.replicate 10 none),
    field_grid := List.replicate 10 (List.replicate 10 "."),
    animal_templates := ats,
    crop_templates := cts }

/-- `FarmCore.__init__` as a whole: load both CSVs (catching any error),
then initialize the pools from whatever loaded. -/
def farmFromRows (arows : List AnimalRow) (crows : List CropRow) : FarmCore :=
  initFarm (_load_animal_data arows) (_load_crop_data crows)

/-- The farm as built on first run, from the default CSV files. -/
def defaultFarm : FarmCore :=
  farmFromRows defaultBarnRows defaultFarmRows

/-- Per-slot body of `_update_animals`. -/
def updateAnimal (a : AnimalData) : AnimalData :=
  if a.state = AnimalState.GROWING then
    if a.timer - 1 ≤ 0 then { a with state := AnimalState.MATURE, timer := 0 }
    else { a with timer := a.timer - 1 }
  else a

def _update_animals (fc : FarmCore) : FarmCore :=
  { fc with animals := fc.animals.map (fun p => (p.1, p.2.map updateAnimal)) }

/-- Symbol written into `field_grid` when a crop turns READY. The source's
`crop.template.crop[0].upper()` is `(s.take 1).toUpper` (crop names are
non-empty in every reachable state). -/
def readySym (t : CropTemplate) : String :=
  "[" ++ (t.crop.take 1).toUpper ++ "]"

/-- Per-cell body of `_update_crops` on `crops[y][x]`. -/
def updateCropCell : Option CropData → Option CropData
  | none => none
  | some c =>
    if c.state = CropState.PLANTED then
      if c.timer - 1 ≤ 0 then some { c with state := CropState.READY, timer := 0 }
      else some { c with timer := c.timer - 1 }
    else some c

/-- Per-cell effect of `_update_crops` on `field_grid[y][x]`: rewritten
exactly when the crop cell transitions to READY this tick. -/
def updateFieldCell : Option CropData → String → String
  | none, f => f
  | some c, f =>
    if c.state = CropState.PLANTED ∧ c.timer - 1 ≤ 0 then readySym c.template else f

/-- `_update_crops`: the double `for y / for x in range(10)` loop acts
cell-wise, so on the (always) 10×10 grids it is the cell-wise map below. -/
def _update_crops (fc : FarmCore) : FarmCore :=
  { fc with
    crops := fc.crops.map (fun row => row.map updateCropCell),
    field_grid := (fc.crops.zip fc.field_grid).map
      (fun rp => (rp.1.zip rp.2).map (fun cp => updateFieldCell cp.1 cp.2)) }

/-- One iteration of the `game_loop` body (the callback notification is an
I/O sink and does not touch the core state). -/
def tick (fc : FarmCore) : FarmCore :=
  _update_crops (_update_animals fc)

def ticks : Nat → FarmCore → FarmCore
  | 0, fc => fc
  | n + 1, fc => ticks n (tick fc)

/-- The slot loop of `feed_animals`, threading `fed_count`. -/
def feedLoop (count : Int) : List AnimalData → Int → List AnimalData × Int
  | [], fed => ([], fed)
  | a :: rest, fed =>
    if a.state = AnimalState.IDLE ∧ fed < count then
      let r := feedLoop count rest (fed + 1)
      ({ a with state := AnimalState.GROWING,
                timer := a.template.minutes * 60 + a.template.seconds } :: r.1, r.2)
    else
      let r := feedLoop count rest fed
      (a :: r.1, r.2)

def feed_animals (fc : FarmCore) (animal_type : String) (count : Int) :
    FarmCore × OpResult :=
  match lookupD fc.animals animal_type with
  | none => (fc, { success := false, message := "Unknown animal type: " ++ animal_type })
  | some lst =>
    let r := feedLoop count lst 0
    ({ fc with animals := updateAssoc fc.animals animal_type r.1 },
     { success := true,
       message := "Successfully fed " ++ toString r.2 ++ " " ++ animal_type ++ "(s)",
       count := some r.2 })

/-- The slot loop of `harvest_animals`, threading `harvested_count` and the
`product` variable (last harvested slot's product, initially `None`). -/
def harvestAnimalsLoop (count : Int) :
    List AnimalData → Int → Option String → List AnimalData × Int × Option String
  | [], h, pr => ([], h, pr)
  | a :: rest, h, pr =>
    if a.state = AnimalState.MATURE ∧ h < count then
      let r := harvestAnimalsLoop count rest (h + 1) (some a.template.product)
      ({ a with state := AnimalState.IDLE, timer := 0 } :: r.1, r.2)
    else
      let r := harvestAnimalsLoop count rest h pr
      (a :: r.1, r.2)

def harvest_animals (fc : FarmCore) (animal_type : String) (count : Int) :
    FarmCore × OpResult :=
  match lookupD fc.animals animal_type with
  | none => (fc, { success := false, message := "Unknown animal type: " ++ animal_type })
  | some lst =>
    let r := harvestAnimalsLoop count lst 0 none
    let fc2 := { fc with animals := updateAssoc fc.animals animal_type r.1 }
    if 0 < r.2.1 then
      (fc2,
       { success := true,
         message := "Successfully harvested " ++ toString r.2.1 ++ " "
           ++ r.2.2.getD "None" ++ "(s)",
         product := r.2.2,
         count := some r.2.1 })
    else
      (fc2, { success := false, message := "No mature animals to harvest" })

def newCropData (t : CropTemplate) : CropData :=
  { state := CropState.PLANTED, timer := t.minutes * 60 + t.seconds, template := t }

/-- Symbol written into `field_grid` when a crop is planted. -/
def plantedSym (crop_type : String) : String :=
  "(" ++ (crop_type.take 1).toUpper ++ ")"

/-- Inner `for x` loop of `plant_crops` over one crops row and the matching
field row, threading `planted_count`; `planted_count >= count` is checked
before each cell (the source's two `break`s). The two grids always have
the same 10×10 shape, so the mismatched-length patterns are unreachable. -/
def plantCells (t : CropTemplate) (sym : String) (count : Int) :
    List (Option CropData) → List String → Int →
    List (Option CropData) × List String × Int
  | [], fs, planted => ([], fs, planted)
  | cs, [], planted => (cs, [], planted)
  | c :: cs, f :: fs, planted =>
    if count ≤ planted then (c :: cs, f :: fs, planted)
    else
      match c with
      | none =>
        let r := plantCells t sym count cs fs (planted + 1)
        (some (newCropData t) :: r.1, sym :: r.2.1, r.2.2)
      | some cd =>
        let r := plantCells t sym count cs fs planted
        (some cd :: r.1, f :: r.2.1, r.2.2)

/-- Outer `for y` loop of `plant_crops`. -/
def plantGrid (t : CropTemplate) (sym : String) (count : Int) :
    List (List (Option CropData)) → List (List String) → Int →
    List (List (Option CropData)) × List (List String) × Int
  | [], fs, planted => ([], fs, planted)
  | cs, [], planted => (cs, [], planted)
  | cr :: cs, fr :: fs, planted =>
    let r := plantCells t sym count cr fr planted
    let rr := plantGrid t sym count cs fs r.2.2
    (r.1 :: rr.1, r.2.1 :: rr.2.1, rr.2.2)

def plant_crops (fc : FarmCore) (count : Int) (crop_type : String) :
    FarmCore × OpResult :=
  match lookupD fc.crop_templates crop_type with
  | none => (fc, { success := false, message := "Unknown crop type: " ++ crop_type })
  | some t =>
    let r := plantGrid t (plantedSym crop_type) count fc.crops fc.field_grid 0
    ({ fc with crops := r.1, field_grid := r.2.1 },
     { success := true,
       message := "Successfully planted " ++ toString r.2.2 ++ " " ++ crop_type ++ "(s)",
       count := some r.2.2 })

def plant_crop (fc : FarmCore) (x y : Int) (crop_type : String) :
    FarmCore × OpResult :=
  if 0 ≤ x ∧ x < 10 ∧ 0 ≤ y ∧ y < 10 then
    match lookupD fc.crop_templates crop_type with
    | none => (fc, { success := false, message := "Unknown crop type: " ++ crop_type })
    | some t =>
      match cellGet fc.crops y.toNat x.toNat none with
      | some _ => (fc, { success := false, message := "Patch already occupied" })
      | none =>
        ({ fc with
            crops := cellSet fc.crops y.toNat x.toNat (some (newCropData t)),
            field_grid := cellSet fc.field_grid y.toNat x.toNat (plantedSym crop_type) },
         { success := true, message := "Successfully planted " ++ crop_type })
  else
    (fc, { success := false, message := "Invalid coordinates" })

/-- Inner `for x` loop of `harvest_crops`, threading `harvested_count` and
the `harvested` list (appended in scan order). -/
def harvestCells (count : Int) :
    List (Option CropData) → List String → Int → List String →
    List (Option CropData) × List String × Int × List String
  | [], fs, h, acc => ([], fs, h, acc)
  | cs, [], h, acc => (cs, [], h, acc)
  | c :: cs, f :: fs, h, acc =>
    if count ≤ h then (c :: cs, f :: fs, h, acc)
    else
      match c with
      | some cd =>
        if cd.state = CropState.READY then
          let r := harvestCells count cs fs (h + 1) (acc ++ [cd.template.crop])
          (none :: r.1, "." :: r.2.1, r.2.2)
        else
          let r := harvestCells count cs fs h acc
          (some cd :: r.1, f :: r.2.1, r.2.2)
      | none =>
        let r := harvestCells count cs fs h acc
        (none :: r.1, f :: r.2.1, r.2.2)

/-- Outer `for y` loop of `harvest_crops`. -/
def harvestGrid (count : Int) :
    List (List (Option CropData)) → List (List String) → Int → List String →
    List (List (Option CropData)) × List (List String) × Int × List String
  | [], fs, h, acc => ([], fs, h, acc)
  | cs, [], h, acc => (cs, [], h, acc)
  | cr :: cs, fr :: fs, h, acc =>
    let r := harvestCells count cr fr h acc
    let rr := harvestGrid count cs fs r.2.2.1 r.2.2.2
    (r.1 :: rr.1, r.2.1 :: rr.2.1, rr.2.2)

def harvest_crops (fc : FarmCore) (count : Int) : FarmCore × OpResult :=
  let r := harvestGrid count fc.crops fc.field_grid 0 []
  let fc2 := { fc with crops := r.1, field_grid := r.2.1 }
  if 0 < r.2.2.1 then
    (fc2,
     { success := true,
       message := "Successfully harvested " ++ toString r.2.2.1 ++ " crop(s)",
       crops := some r.2.2.2,
       count := some r.2.2.1 })
  else
    (fc2, { success := false, message := "No ready crops to harvest" })

def harvest_crop (fc : FarmCore) (x y : Int) : FarmCore × OpResult :=
  if 0 ≤ x ∧ x < 10 ∧ 0 ≤ y ∧ y < 10 then
    match cellGet fc.crops y.toNat x.toNat none with
    | none => (fc, { success := false, message := "No crop at this location" })
    | some c =>
      if c.state = CropState.READY then
        ({ fc with
            crops := cellSet fc.crops y.toNat x.toNat none,
            field_grid := cellSet fc.field_grid y.toNat x.toNat "." },
         { success := true,
           message := "Successfully harvested " ++ c.template.crop,
           crop := some c.template.crop })
      else
        (fc, { success := false, message := "Crop is not ready for harvest" })
  else
    (fc, { success := false, message := "Invalid coordinates" })

def idleCount (lst : List AnimalData) : Nat :=
  lst.countP (fun a => decide (a.state = AnimalState.IDLE))

def growingCount (lst : List AnimalData) : Nat :=
  lst.countP (fun a => decide (a.state = AnimalState.GROWING))

def matureCount (lst : List AnimalData) : Nat :=
  lst.countP (fun a => decide (a.state = AnimalState.MATURE))

/-- `get_animal_status`: per species, (idle, growing, mature). -/
def get_animal_status (fc : FarmCore) : List (String × Nat × Nat × Nat) :=
  fc.animals.map (fun p => (p.1, idleCount p.2, growingCount p.2, matureCount p.2))

def isEmptyCell : Option CropData → Bool
  | none => true
  | some _ => false

def isPlantedCell : Option CropData → Bool
  | none => false
  | some cd => decide (cd.state = CropState.PLANTED)

def isReadyCell : Option CropData → Bool
  | none => false
  | some cd => decide (cd.state = CropState.READY)

def emptyCountGrid : List (List (Option CropData)) → Nat
  | [] => 0
  | row :: rows => row.countP isEmptyCell + emptyCountGrid rows

def plantedCountGrid : List (List (Option CropData)) → Nat
  | [] => 0
  | row :: rows => row.countP isPlantedCell + plantedCountGrid rows

def readyCountGrid : List (List (Option CropData)) → Nat
  | [] => 0
  | row :: rows => row.countP isReadyCell + readyCountGrid rows

/-- `get_crop_status`: (empty, planted, ready). -/
def get_crop_status (fc : FarmCore) : Nat × Nat × Nat :=
  (emptyCountGrid fc.crops, plantedCountGrid fc.crops, readyCountGrid fc.crops)

/-- The six mutating command operations of the command surface. -/
inductive Cmd
  | feed (species : String) (count : Int)
  | harvestAnimal (species : String) (count : Int)
  | plantAny (count : Int) (crop_type : String)
  | plantAt (x y : Int) (crop_type : String)
  | harvestAny (count : Int)
  | harvestAt (x y : Int)
  deriving DecidableEq

def runCmd : Cmd → FarmCore → FarmCore × OpResult
  | Cmd.feed sp c, fc => feed_animals fc sp c
  | Cmd.harvestAnimal sp c, fc => harvest_animals fc sp c
  | Cmd.plantAny c ct, fc => plant_crops fc c ct
  | Cmd.plantAt x y ct, fc => plant_crop fc x y ct
  | Cmd.harvestAny c, fc => harvest_crops fc c
  | Cmd.harvestAt x y, fc => harvest_crop fc x y

/-- A step of the whole system: a command, or one tick of the game loop. -/
inductive Op
  | cmd (c : Cmd)
  | tick
  deriving DecidableEq

def applyOp : Op → FarmCore → FarmCore
  | Op.cmd c, fc => (runCmd c fc).1
  | Op.tick, fc => tick fc

def applyOps (ops : List Op) (fc : FarmCore) : FarmCore :=
  ops.foldl (fun s o => applyOp o s) fc

/-- The templates the default CSV rows load into. -/
def cowT : AnimalTemplate := ⟨"cow", 0, 30, "milk", "", ""⟩

def wheatT : CropTemplate := ⟨"wheat", 0, 25, "", "", ""⟩

/-- A fresh 6-slot pool as `_initialize_animals` builds it for the cow. -/
def cowPool0 : List AnimalData :=
  List.replicate 6 ⟨AnimalState.IDLE, 0, cowT⟩

/-- A species whose template duration is 0 minutes 0 seconds. -/
def mayflyT : AnimalTemplate := ⟨"mayfly", 0, 0, "dust", "", ""⟩

/-- A farm whose only species has total duration 0. -/
def zeroFarm : FarmCore := initFarm [("mayfly", mayflyT)] []

/-- The first default barn row (well-formed). -/
def cowRow : AnimalRow :=
  ⟨some "cow", some "0", some "30", some "milk", some "", some ""⟩

/-- A malformed row: its `minutes` column is not numeric, so
`int(row["minutes"])` raises `ValueError` inside the loading loop. -/
def badGoatRow : AnimalRow :=
  ⟨some "goat", some "abc", some "10", some "hair", some "", some ""⟩

/-- The first default farm row (well-formed). -/
def wheatRow : CropRow :=
  ⟨some "wheat", some "0", some "25", some "", some "", some ""⟩

/-- A malformed crop row: its `minutes` column is not numeric, so
`int(row["minutes"])` raises `ValueError` inside `_load_crop_data`. -/
def badBeetRow : CropRow :=
  ⟨some "beet", some "xx", some "5", some "", some "", some ""⟩

/-- Well-formedness of the crops grid (10 rows of 10 cells); established by
`__init__` and preserved by every operation. -/
def cropsShape (fc : FarmCore) : Prop :=
  fc.crops.length = 10 ∧ ∀ r ∈ fc.crops, r.length = 10

/-! ### Helper lemmas about the embedded operations -/

lemma lookupD_mem {α : Type} :
    ∀ (d : List (String × α)) (k : String) (v : α),
      lookupD d k = some v → (k, v) ∈ d := by
  intro d
  induction d with
  | nil => intro k v h; simp [lookupD] at h
  | cons p rest ih =>
    intro k v h
    simp only [lookupD] at h
    by_cases hk : p.1 = k
    · rw [if_pos hk] at h
      injection h with h2
      rw [← hk, ← h2, Prod.mk.eta]
      exact List.mem_cons_self _ _
    · rw [if_neg hk] at h
      exact List.mem_cons_of_mem _ (ih k v h)

lemma updateAssoc_self {α : Type} :
    ∀ (d : List (String × α)) (k : String) (v : α),
      lookupD d k = some v → updateAssoc d k v = d := by
  intro d
  induction d with
  | nil => intro k v h; simp [lookupD] at h
  | cons p rest ih =>
    intro k v h
    simp only [lookupD] at h
    simp only [updateAssoc]
    by_cases hk : p.1 = k
    · rw [if_pos hk] at h
      injection h with h2
      rw [if_pos hk, ← h2, Prod.mk.eta]
    · rw [if_neg hk] at h
      rw [if_neg hk, ih k v h]

lemma updateAssoc_forall {α : Type} (P : α → Prop) :
    ∀ (d : List (String × α)) (k : String) (v : α),
      (∀ q ∈ d, P q.2) → P v → ∀ q ∈ updateAssoc d k v, P q.2 := by
  intro d
  induction d with
  | nil => intro k v _ _ q hq; simp [updateAssoc] at hq
  | cons p rest ih =>
    intro k v hall hv q hq
    simp only [updateAssoc] at hq
    by_cases hk : p.1 = k
    · rw [if_pos hk] at hq
      rcases List.mem_cons.mp hq with h1 | h2
      · subst h1; exact hv
      · exact hall q (List.mem_cons_of_mem _ h2)
    · rw [if_neg hk] at hq
      rcases List.mem_cons.mp hq with h1 | h2
      · subst h1; exact hall q (List.mem_cons_self _ _)
      · exact ih k v (fun q hq => hall q (List.mem_cons_of_mem _ hq)) hv q h2

lemma feedLoop_length (count : Int) :
    ∀ (lst : List AnimalData) (fed : Int),
      (feedLoop count lst fed).1.length = lst.length := by
  intro lst
  induction lst with
  | nil => intro fed; simp [feedLoop]
  | cons a rest ih =>
    intro fed
    simp only [feedLoop]
    by_cases h : a.state = AnimalState.IDLE ∧ fed < count
    · rw [if_pos h]; simp [ih]
    · rw [if_neg h]; simp [ih]

lemma feedLoop_le_idle (count : Int) :
    ∀ (lst : List AnimalData) (fed : Int),
      (feedLoop count lst fed).2 ≤ fed + (idleCount lst : Int) := by
  intro lst
  induction lst with
  | nil => intro fed; simp [feedLoop, idleCount]
  | cons a rest ih =>
    intro fed
    simp only [feedLoop, idleCount, List.countP_cons]
    by_cases h : a.state = AnimalState.IDLE ∧ fed < count
    · rw [if_pos h]
      have h2 := ih (fed + 1)
      simp only [idleCount] at h2
      have hid : decide (a.state = AnimalState.IDLE) = true := by simp [h.1]
      simp only [hid, if_true]
      push_cast
      omega
    · rw [if_neg h]
      have h2 := ih fed
      simp only [idleCount] at h2
      by_cases hid : a.state = AnimalState.IDLE
      · have hid2 : decide (a.state = AnimalState.IDLE) = true := by simp [hid]
        simp only [hid2, if_true]
        push_cast
        omega
      · have hid2 : decide (a.state = AnimalState.IDLE) = false := by simp [hid]
        simp only [hid2, if_false]
        omega

lemma feedLoop_stop (count : Int) :
    ∀ (lst : List AnimalData) (fed : Int),
      ¬ fed < count → feedLoop count lst fed = (lst, fed) := by
  intro lst
  induction lst with
  | nil => intro fed _; simp [feedLoop]
  | cons a rest ih =>
    intro fed h
    simp only [feedLoop]
    rw [if_neg (by tauto)]
    simp [ih fed h]

lemma harvestAnimalsLoop_length (count : Int) :
    ∀ (lst : List AnimalData) (h0 : Int) (pr : Option String),
      (harvestAnimalsLoop count lst h0 pr).1.length = lst.length := by
  intro lst
  induction lst with
  | nil => intro h0 pr; simp [harvestAnimalsLoop]
  | cons a rest ih =>
    intro h0 pr
    simp only [harvestAnimalsLoop]
    by_cases h : a.state = AnimalState.MATURE ∧ h0 < count
    · rw [if_pos h]; simp [ih]
    · rw [if_neg h]; simp [ih]

lemma harvestAnimalsLoop_mono (count : Int) :
    ∀ (lst : List AnimalData) (h0 : Int) (pr : Option String),
      h0 ≤ (harvestAnimalsLoop count lst h0 pr).2.1 := by
  intro lst
  induction lst with
  | nil => intro h0 pr; simp [harvestAnimalsLoop]
  | cons a rest ih =>
    intro h0 pr
    simp only [harvestAnimalsLoop]
    by_cases h : a.state = AnimalState.MATURE ∧ h0 < count
    · rw [if_pos h]
      have := ih (h0 + 1) (some a.template.product)
      dsimp only
      omega
    · rw [if_neg h]
      have := ih h0 pr
      dsimp only
      omega

lemma harvestAnimalsLoop_zero (count : Int) :
    ∀ (lst : List AnimalData) (h0 : Int) (pr : Option String),
      (harvestAnimalsLoop count lst h0 pr).2.1 = h0 →
      (harvestAnimalsLoop count lst h0 pr).1 = lst := by
  intro lst
  induction lst with
  | nil => intro h0 pr _; simp [harvestAnimalsLoop]
  | cons a rest ih =>
    intro h0 pr hz
    simp only [harvestAnimalsLoop] at hz ⊢
    by_cases h : a.state = AnimalState.MATURE ∧ h0 < count
    · rw [if_pos h] at hz
      have := harvestAnimalsLoop_mono count rest (h0 + 1) (some a.template.product)
      dsimp only at hz
      omega
    · rw [if_neg h] at hz ⊢
      dsimp only at hz ⊢
      simp [ih h0 pr hz]

lemma harvestAnimalsLoop_no_mature (count : Int) :
    ∀ (lst : List AnimalData) (h0 : Int) (pr : Option String),
      matureCount lst = 0 →
      harvestAnimalsLoop count lst h0 pr = (lst, h0, pr) := by
  intro lst
  induction lst with
  | nil => intro h0 pr _; simp [harvestAnimalsLoop]
  | cons a rest ih =>
    intro h0 pr hm
    simp only [matureCount, List.countP_cons] at hm
    have ha : ¬ a.state = AnimalState.MATURE := by
      intro hc
      simp [hc] at hm
    have hrest : matureCount rest = 0 := by
      simp only [matureCount]
      omega
    simp only [harvestAnimalsLoop]
    rw [if_neg (by tauto)]
    simp [ih h0 pr hrest]

lemma counts_partition :
    ∀ lst : List AnimalData,
      idleCount lst + growingCount lst + matureCount lst = lst.length := by
  intro lst
  induction lst with
  | nil => simp [idleCount, growingCount, matureCount]
  | cons a rest ih =>
    simp only [idleCount, growingCount, matureCount, List.countP_cons,
      List.length_cons] at *
    cases a.state <;> simp <;> omega

lemma plantCells_stop (t : CropTemplate) (sym : String) (count : Int) :
    ∀ (cs : List (Option CropData)) (fs : List String) (planted : Int),
      count ≤ planted →
      plantCells t sym count cs fs planted = (cs, fs, planted) := by
  intro cs fs planted h
  match cs, fs with
  | [], fs => simp [plantCells]
  | c :: cs, [] => simp [plantCells]
  | c :: cs, f :: fs =>
    simp only [plantCells]
    rw [if_pos h]

lemma plantGrid_stop (t : CropTemplate) (sym : String) (count : Int) :
    ∀ (cs : List (List (Option CropData))) (fs : List (List String)) (planted : Int),
      count ≤ planted →
      plantGrid t sym count cs fs planted = (cs, fs, planted) := by
  intro cs
  induction cs with
  | nil => intro fs planted h; simp [plantGrid]
  | cons cr cs ih =>
    intro fs planted h
    match fs with
    | [] => simp [plantGrid]
    | fr :: fs =>
      simp only [plantGrid]
      rw [plantCells_stop t sym count cr fr planted h]
      dsimp only
      rw [ih fs planted h]

lemma harvestCells_mono (count : Int) :
    ∀ (cs : List (Option CropData)) (fs : List String) (h0 : Int) (acc : List String),
      h0 ≤ (harvestCells count cs fs h0 acc).2.2.1 := by
  intro cs
  induction cs with
  | nil => intro fs h0 acc; simp [harvestCells]
  | cons c cs ih =>
    intro fs h0 acc
    match fs with
    | [] => simp [harvestCells]
    | f :: fs =>
      simp only [harvestCells]
      by_cases h : count ≤ h0
      · rw [if_pos h]
      · rw [if_neg h]
        match c with
        | some cd =>
          dsimp only
          by_cases hr : cd.state = CropState.READY
          · rw [if_pos hr]
            have := ih fs (h0 + 1) (acc ++ [cd.template.crop])
            dsimp only
            omega
          · rw [if_neg hr]
            have := ih fs h0 acc
            dsimp only
            omega
        | none =>
          have := ih fs h0 acc
          dsimp only
          omega

lemma harvestCells_zero (count : Int) :
    ∀ (cs : List (Option CropData)) (fs : List String) (h0 : Int) (acc : List String),
      (harvestCells count cs fs h0 acc).2.2.1 = h0 →
      harvestCells count cs fs h0 acc = (cs, fs, h0, acc) := by
  intro cs
  induction cs with
  | nil => intro fs h0 acc _; simp [harvestCells]
  | cons c cs ih =>
    intro fs h0 acc hz
    match fs with
    | [] => simp [harvestCells]
    | f :: fs =>
      simp only [harvestCells] at hz ⊢
      by_cases h : count ≤ h0
      · rw [if_pos h]
      · rw [if_neg h] at hz ⊢
        match c with
        | some cd =>
          dsimp only at hz ⊢
          by_cases hr : cd.state = CropState.READY
          · rw [if_pos hr] at hz
            have := harvestCells_mono count cs fs (h0 + 1) (acc ++ [cd.template.crop])
            dsimp only at hz
            omega
          · rw [if_neg hr] at hz ⊢
            dsimp only at hz ⊢
            simp [ih fs h0 acc hz]
        | none =>
          dsimp only at hz ⊢
          simp [ih fs h0 acc hz]

lemma harvestGrid_mono (count : Int) :
    ∀ (cs : List (List (Option CropData))) (fs : List (List String))
      (h0 : Int) (acc : List String),
      h0 ≤ (harvestGrid count cs fs h0 acc).2.2.1 := by
  intro cs
  induction cs with
  | nil => intro fs h0 acc; simp [harvestGrid]
  | cons cr cs ih =>
    intro fs h0 acc
    match fs with
    | [] => simp [harvestGrid]
    | fr :: fs =>
      simp only [harvestGrid]
      have h1 := harvestCells_mono count cr fr h0 acc
      have h2 := ih fs (harvestCells count cr fr h0 acc).2.2.1
        (harvestCells count cr fr h0 acc).2.2.2
      omega

lemma harvestGrid_zero (count : Int) :
    ∀ (cs : List (List (Option CropData))) (fs : List (List String))
      (h0 : Int) (acc : List String),
      (harvestGrid count cs fs h0 acc).2.2.1 = h0 →
      harvestGrid count cs fs h0 acc = (cs, fs, h0, acc) := by
  intro cs
  induction cs with
  | nil => intro fs h0 acc _; simp [harvestGrid]
  | cons cr cs ih =>
    intro fs h0 acc hz
    match fs with
    | [] => simp [harvestGrid]
    | fr :: fs =>
      simp only [harvestGrid] at hz ⊢
      have h1 := harvestCells_mono count cr fr h0 acc
      have h2 := harvestGrid_mono count cs fs (harvestCells count cr fr h0 acc).2.2.1
        (harvestCells count cr fr h0 acc).2.2.2
      have hcell : (harvestCells count cr fr h0 acc).2.2.1 = h0 := by omega
      have hc := harvestCells_zero count cr fr h0 acc hcell
      rw [hc] at hz ⊢
      dsimp only at hz ⊢
      simp [ih fs h0 acc hz]

lemma harvestCells_no_ready (count : Int) :
    ∀ (cs : List (Option CropData)) (fs : List String) (h0 : Int) (acc : List String),
      cs.countP isReadyCell = 0 →
      harvestCells count cs fs h0 acc = (cs, fs, h0, acc) := by
  intro cs
  induction cs with
  | nil => intro fs h0 acc _; simp [harvestCells]
  | cons c cs ih =>
    intro fs h0 acc hnr
    simp only [List.countP_cons] at hnr
    have hc : isReadyCell c = false := by
      cases hb : isReadyCell c
      · rfl
      · simp [hb] at hnr
    have hrest : cs.countP isReadyCell = 0 := by omega
    match fs with
    | [] => simp [harvestCells]
    | f :: fs =>
      simp only [harvestCells]
      by_cases h : count ≤ h0
      · rw [if_pos h]
      · rw [if_neg h]
        match c with
        | some cd =>
          have hr : ¬ cd.state = CropState.READY := by
            simp only [isReadyCell] at hc
            simpa using hc
          dsimp only
          rw [if_neg hr]
          simp [ih fs h0 acc hrest]
        | none =>
          dsimp only
          simp [ih fs h0 acc hrest]

lemma harvestGrid_no_ready (count : Int) :
    ∀ (cs : List (List (Option CropData))) (fs : List (List String))
      (h0 : Int) (acc : List String),
      readyCountGrid cs = 0 →
      harvestGrid count cs fs h0 acc = (cs, fs, h0, acc) := by
  intro cs
  induction cs with
  | nil => intro fs h0 acc _; simp [harvestGrid]
  | cons cr cs ih =>
    intro fs h0 acc hnr
    simp only [readyCountGrid] at hnr
    have h1 : cr.countP isReadyCell = 0 := by omega
    have h2 : readyCountGrid cs = 0 := by omega
    match fs with
    | [] => simp [harvestGrid]
    | fr :: fs =>
      simp only [harvestGrid]
      rw [harvestCells_no_ready count cr fr h0 acc h1]
      dsimp only
      rw [ih fs h0 acc h2]

/-! ### Claim theorems -/

/-- C1 counterexample: on the fresh default farm (all cow slots IDLE, every
patch empty) both harvest operations find zero eligible targets, yet both
return `success = false` — not the successful zero-count result the claim
asserts. -/
theorem harvest_zero_eligible_not_success :
    (harvest_animals defaultFarm "cow" 1).2.success = false
    ∧ (harvest_crops defaultFarm 5).2.success = false := by
  constructor
  · decide
  · decide

/-- C1 (amended): a harvest request that finds zero eligible targets
(`harvest_animals` on a known species with no MATURE slots,
`harvest_crops` with no READY patches) returns a FAILURE result
("No mature animals to harvest" / "No ready crops to harvest") and
mutates no state. -/
theorem harvest_zero_eligible_fails_no_mutation
    (fc : FarmCore) (sp : String) (lst : List AnimalData) (count count2 : Int)
    (hl : lookupD fc.animals sp = some lst) (hm : matureCount lst = 0)
    (hr : readyCountGrid fc.crops = 0) :
    ((harvest_animals fc sp count).2.success = false
      ∧ (harvest_animals fc sp count).1 = fc)
    ∧ ((harvest_crops fc count2).2.success = false
      ∧ (harvest_crops fc count2).1 = fc) := by
  have hloop := harvestAnimalsLoop_no_mature count lst 0 none hm
  have hgrid := harvestGrid_no_ready count2 fc.crops fc.field_grid 0 [] hr
  constructor
  · simp only [harvest_animals, hl]
    rw [hloop]
    dsimp only
    rw [if_neg (by omega)]
    refine ⟨rfl, ?_⟩
    rw [updateAssoc_self fc.animals sp lst hl]
  · simp only [harvest_crops]
    rw [hgrid]
    dsimp only
    rw [if_neg (by omega)]
    exact ⟨rfl, rfl⟩

theorem harvest_zero_eligible_fails_no_mutation_witness :
    (lookupD defaultFarm.animals "cow" = some cowPool0
      ∧ matureCount cowPool0 = 0
      ∧ readyCountGrid defaultFarm.crops = 0)
    ∧ (((harvest_animals defaultFarm "cow" 1).2.success = false
        ∧ (harvest_animals defaultFarm "cow" 1).1 = defaultFarm)
      ∧ ((harvest_crops defaultFarm 5).2.success = false
        ∧ (harvest_crops defaultFarm 5).1 = defaultFarm)) :=
  ⟨⟨by decide, by decide, by decide⟩,
   harvest_zero_eligible_fails_no_mutation defaultFarm "cow" cowPool0 1 5
     (by decide) (by decide) (by decide)⟩

/-- C4 counterexample: `feed_animals` with `count = 0` and `plant_crops`
with `count = 0` SUCCEED with a count of 0; neither fails with an
InvalidArgument error (the code has no `count <= 0` check at all). -/
theorem nonpositive_count_not_invalid_argument :
    ((feed_animals defaultFarm "cow" 0).2.success = true
      ∧ (feed_animals defaultFarm "cow" 0).2.count = some 0)
    ∧ ((plant_crops defaultFarm 0 "wheat").2.success = true
      ∧ (plant_crops defaultFarm 0 "wheat").2.count = some 0) := by
  exact ⟨⟨by decide, by decide⟩, ⟨by decide, by decide⟩⟩

/-- C4 (amended): for `count ≤ 0` (with a known species / crop type),
`feed_animals` and `plant_crops` return a SUCCESS result with count 0 and
mutate no state — they do not fail with InvalidArgument. -/
theorem nonpositive_count_succeeds_zero
    (fc : FarmCore) (sp ct : String) (lst : List AnimalData) (t : CropTemplate)
    (count count2 : Int) (hc : count ≤ 0) (hc2 : count2 ≤ 0)
    (hl : lookupD fc.animals sp = some lst)
    (ht : lookupD fc.crop_templates ct = some t) :
    ((feed_animals fc sp count).2.success = true
      ∧ (feed_animals fc sp count).2.count = some 0
      ∧ (feed_animals fc sp count).1 = fc)
    ∧ ((plant_crops fc count2 ct).2.success = true
      ∧ (plant_crops fc count2 ct).2.count = some 0
      ∧ (plant_crops fc count2 ct).1 = fc) := by
  have hfl := feedLoop_stop count lst 0 (by omega)
  have hpg := plantGrid_stop t (plantedSym ct) count2 fc.crops fc.field_grid 0 (by omega)
  constructor
  · simp only [feed_animals, hl]
    rw [hfl]
    dsimp only
    refine ⟨trivial, rfl, ?_⟩
    rw [updateAssoc_self fc.animals sp lst hl]
  · simp only [plant_crops, ht]
    rw [hpg]
    dsimp only
    exact ⟨trivial, rfl, rfl⟩

theorem nonpositive_count_succeeds_zero_witness :
    ((0 : Int) ≤ 0
      ∧ lookupD defaultFarm.animals "cow" = some cowPool0
      ∧ lookupD defaultFarm.crop_templates "wheat" = some wheatT)
    ∧ (((feed_animals defaultFarm "cow" 0).2.success = true
        ∧ (feed_animals defaultFarm "cow" 0).2.count = some 0
        ∧ (feed_animals defaultFarm "cow" 0).1 = defaultFarm)
      ∧ ((plant_crops defaultFarm 0 "wheat").2.success = true
        ∧ (plant_crops defaultFarm 0 "wheat").2.count = some 0
        ∧ (plant_crops defaultFarm 0 "wheat").1 = defaultFarm)) :=
  ⟨⟨by decide, by decide, by decide⟩,
   nonpositive_count_succeeds_zero defaultFarm "cow" "wheat" cowPool0 wheatT 0 0
     (by decide) (by decide) (by decide) (by decide)⟩

/-- C6: each tick, a GROWING slot's / PLANTED patch's timer decreases by 1
clamped at 0; the entity transitions to MATURE / READY in the very tick the
decremented timer reaches 0; while it stays GROWING / PLANTED the timer is
exactly the old timer minus 1 and still positive, and the timer never
increases and never goes below 0. -/
theorem timer_tick_behavior :
    (∀ a : AnimalData, a.state = AnimalState.GROWING → 0 ≤ a.timer →
      ((updateAnimal a).timer = max (a.timer - 1) 0
        ∧ ((updateAnimal a).state = AnimalState.MATURE ↔ a.timer - 1 ≤ 0)
        ∧ ((updateAnimal a).state = AnimalState.GROWING →
            (updateAnimal a).timer = a.timer - 1 ∧ 0 < (updateAnimal a).timer)
        ∧ (updateAnimal a).timer ≤ a.timer
        ∧ 0 ≤ (updateAnimal a).timer))
    ∧ (∀ c : CropData, c.state = CropState.PLANTED → 0 ≤ c.timer →
      ∃ c2, updateCropCell (some c) = some c2
        ∧ (c2.timer = max (c.timer - 1) 0
          ∧ (c2.state = CropState.READY ↔ c.timer - 1 ≤ 0)
          ∧ (c2.state = CropState.PLANTED → c2.timer = c.timer - 1 ∧ 0 < c2.timer)
          ∧ c2.timer ≤ c.timer
          ∧ 0 ≤ c2.timer)) := by
  constructor
  · intro a hg h0
    by_cases ht : a.timer - 1 ≤ 0
    · have e : updateAnimal a = { a with state := AnimalState.MATURE, timer := 0 } := by
        unfold updateAnimal
        rw [if_pos hg, if_pos ht]
      rw [e]
      refine ⟨?_, ?_, ?_, ?_, ?_⟩
      · show (0 : Int) = max (a.timer - 1) 0
        exact (max_eq_right ht).symm
      · show AnimalState.MATURE = AnimalState.MATURE ↔ a.timer - 1 ≤ 0
        simp [ht]
      · show AnimalState.MATURE = AnimalState.GROWING → _
        intro hcon
        exact absurd hcon (by decide)
      · show (0 : Int) ≤ a.timer
        exact h0
      · show (0 : Int) ≤ 0
        exact le_refl 0
    · have e : updateAnimal a = { a with timer := a.timer - 1 } := by
        unfold updateAnimal
        rw [if_pos hg, if_neg ht]
      rw [e]
      refine ⟨?_, ?_, ?_, ?_, ?_⟩
      · show a.timer - 1 = max (a.timer - 1) 0
        exact (max_eq_left (by omega)).symm
      · show a.state = AnimalState.MATURE ↔ a.timer - 1 ≤ 0
        rw [hg]
        simp [ht]
      · refine fun _ => ⟨rfl, ?_⟩
        show (0 : Int) < a.timer - 1
        omega
      · show a.timer - 1 ≤ a.timer
        omega
      · show (0 : Int) ≤ a.timer - 1
        omega
  · intro c hp h0
    by_cases ht : c.timer - 1 ≤ 0
    · have e : updateCropCell (some c) = some { c with state := CropState.READY, timer := 0 } := by
        simp only [updateCropCell]
        rw [if_pos hp, if_pos ht]
      refine ⟨{ c with state := CropState.READY, timer := 0 }, e, ?_, ?_, ?_, ?_, ?_⟩
      · show (0 : Int) = max (c.timer - 1) 0
        exact (max_eq_right ht).symm
      · show CropState.READY = CropState.READY ↔ c.timer - 1 ≤ 0
        simp [ht]
      · show CropState.READY = CropState.PLANTED → _
        intro hcon
        exact absurd hcon (by decide)
      · show (0 : Int) ≤ c.timer
        exact h0
      · show (0 : Int) ≤ 0
        exact le_refl 0
    · have e : updateCropCell (some c) = some { c with timer := c.timer - 1 } := by
        simp only [updateCropCell]
        rw [if_pos hp, if_neg ht]
      refine ⟨{ c with timer := c.timer - 1 }, e, ?_, ?_, ?_, ?_, ?_⟩
      · show c.timer - 1 = max (c.timer - 1) 0
        exact (max_eq_left (by omega)).symm
      · show c.state = CropState.READY ↔ c.timer - 1 ≤ 0
        rw [hp]
        simp [ht]
      · refine fun _ => ⟨rfl, ?_⟩
        show (0 : Int) < c.timer - 1
        omega
      · show c.timer - 1 ≤ c.timer
        omega
      · show (0 : Int) ≤ c.timer - 1
        omega

theorem timer_tick_behavior_witness :
    ((⟨AnimalState.GROWING, 3, cowT⟩ : AnimalData).state = AnimalState.GROWING
      ∧ ((updateAnimal ⟨AnimalState.GROWING, 3, cowT⟩).timer = 2
        ∧ (updateAnimal ⟨AnimalState.GROWING, 3, cowT⟩).state = AnimalState.GROWING))
    ∧ (∃ c2, updateCropCell (some ⟨CropState.PLANTED, 1, wheatT⟩) = some c2
        ∧ c2.state = CropState.READY ∧ c2.timer = 0) := by
  have h1 := timer_tick_behavior.1 ⟨AnimalState.GROWING, 3, cowT⟩ rfl (by decide)
  have h2 := timer_tick_behavior.2 ⟨CropState.PLANTED, 1, wheatT⟩ rfl (by decide)
  refine ⟨⟨rfl, by decide, by decide⟩, ?_⟩
  obtain ⟨c2, he, _, hr, _⟩ := h2
  exact ⟨c2, he, hr.mpr (by decide), by
    have : c2 = ⟨CropState.READY, 0, wheatT⟩ := by
      rw [show updateCropCell (some ⟨CropState.PLANTED, 1, wheatT⟩)
            = some ⟨CropState.READY, 0, wheatT⟩ from by decide] at he
      exact (Option.some.inj he).symm
    rw [this]⟩

/-- C8: the number fed never exceeds the number of currently IDLE slots,
which never exceeds the pool size; and on the fresh default farm,
`feed("cow", 6)` feeds exactly 6 and an immediately subsequent
`feed("cow", 1)` feeds 0. -/
theorem feed_capacity_ceiling (fc : FarmCore) (sp : String) (count : Int)
    (lst : List AnimalData) (hl : lookupD fc.animals sp = some lst) :
    ((feed_animals fc sp count).2.count = some (feedLoop count lst 0).2
      ∧ (feedLoop count lst 0).2 ≤ (idleCount lst : Int)
      ∧ idleCount lst ≤ lst.length)
    ∧ (feed_animals defaultFarm "cow" 6).2.count = some 6
    ∧ (feed_animals (feed_animals defaultFarm "cow" 6).1 "cow" 1).2.count = some 0 := by
  refine ⟨⟨?_, ?_, ?_⟩, by decide, by decide⟩
  · simp [feed_animals, hl]
  · have := feedLoop_le_idle count lst 0
    omega
  · exact List.countP_le_length _

theorem feed_capacity_ceiling_witness :
    lookupD defaultFarm.animals "cow" = some cowPool0
    ∧ (((feed_animals defaultFarm "cow" 6).2.count = some (feedLoop 6 cowPool0 0).2
        ∧ (feedLoop 6 cowPool0 0).2 ≤ (idleCount cowPool0 : Int)
        ∧ idleCount cowPool0 ≤ cowPool0.length)
      ∧ (feed_animals defaultFarm "cow" 6).2.count = some 6
      ∧ (feed_animals (feed_animals defaultFarm "cow" 6).1 "cow" 1).2.count = some 0) :=
  ⟨by decide, feed_capacity_ceiling defaultFarm "cow" 6 cowPool0 (by decide)⟩

/-- C9: coordinates with x or y outside [0, 10) are rejected by both
`plant_crop` and `harvest_crop` with the "Invalid coordinates" failure,
before the grid is touched: the state is returned unchanged. -/
theorem out_of_bounds_rejected (fc : FarmCore) (x y : Int) (ct : String)
    (h : ¬ (0 ≤ x ∧ x < 10 ∧ 0 ≤ y ∧ y < 10)) :
    plant_crop fc x y ct = (fc, { success := false, message := "Invalid coordinates" })
    ∧ harvest_crop fc x y = (fc, { success := false, message := "Invalid coordinates" }) := by
  constructor
  · simp only [plant_crop]
    rw [if_neg h]
  · simp only [harvest_crop]
    rw [if_neg h]

theorem out_of_bounds_rejected_witness :
    (¬ ((0 : Int) ≤ 10 ∧ (10 : Int) < 10 ∧ (0 : Int) ≤ 0 ∧ (0 : Int) < 10))
    ∧ (plant_crop defaultFarm 10 0 "corn"
        = (defaultFarm, { success := false, message := "Invalid coordinates" })
      ∧ harvest_crop defaultFarm 10 0
        = (defaultFarm, { success := false, message := "Invalid coordinates" })) :=
  ⟨by decide, out_of_bounds_rejected defaultFarm 10 0 "corn" (by decide)⟩

/-- C10: feeding an IDLE slot of a species whose template duration is
0m 0s moves it to GROWING with timer 0 (never directly to MATURE); it
matures only when the next tick runs; a status query issued between the
feed and that tick still reports it as growing (zeroFarm: fed 2 slots show
growing=2, mature=0 before the tick, mature=2 after). -/
theorem zero_duration_feed_growing :
    (∀ (t : AnimalTemplate) (a : AnimalData) (rest : List AnimalData) (count fed : Int),
      t.minutes = 0 → t.seconds = 0 → a.state = AnimalState.IDLE → a.template = t →
      fed < count →
      (feedLoop count (a :: rest) fed).1 =
        { a with state := AnimalState.GROWING, timer := 0 }
          :: (feedLoop count rest (fed + 1)).1
      ∧ updateAnimal { a with state := AnimalState.GROWING, timer := 0 }
          = { a with state := AnimalState.MATURE, timer := 0 })
    ∧ get_animal_status (feed_animals zeroFarm "mayfly" 2).1 = [("mayfly", 4, 2, 0)]
    ∧ get_animal_status (tick (feed_animals zeroFarm "mayfly" 2).1) = [("mayfly", 4, 0, 2)] := by
  refine ⟨?_, by decide, by decide⟩
  intro t a rest count fed h1 h2 h3 h4 h5
  constructor
  · simp only [feedLoop]
    rw [if_pos ⟨h3, h5⟩]
    dsimp only
    rw [h4, h1, h2]
    norm_num
  · simp [updateAnimal]

theorem zero_duration_feed_growing_witness :
    (mayflyT.minutes = 0 ∧ mayflyT.seconds = 0 ∧ (0 : Int) < 1)
    ∧ ((feedLoop 1 [⟨AnimalState.IDLE, 0, mayflyT⟩] 0).1 =
        ⟨AnimalState.GROWING, 0, mayflyT⟩ :: (feedLoop 1 [] 1).1
      ∧ updateAnimal ⟨AnimalState.GROWING, 0, mayflyT⟩
          = ⟨AnimalState.MATURE, 0, mayflyT⟩) :=
  ⟨⟨by decide, by decide, by decide⟩,
   zero_duration_feed_growing.1 mayflyT ⟨AnimalState.IDLE, 0, mayflyT⟩ [] 1 0
     rfl rfl rfl rfl (by decide)⟩

/-- Loading a row list whose well-formed prefix `pre` is followed by a
malformed row stops at that row: the exception is caught, the loop result
is the prefix's templates, and the error flag is set. -/
lemma loadAnimalLoop_append (r : AnimalRow) (rest : List AnimalRow)
    (hr : parseAnimalRow r = none) :
    ∀ (pre : List AnimalRow) (acc : List (String × AnimalTemplate)),
      (∀ x ∈ pre, (parseAnimalRow x).isSome) →
      loadAnimalLoop (pre ++ r :: rest) acc = ((loadAnimalLoop pre acc).1, false) := by
  intro pre
  induction pre with
  | nil =>
    intro acc _
    simp only [List.nil_append, loadAnimalLoop, hr]
  | cons x pre ih =>
    intro acc hall
    have hx := hall x (List.mem_cons_self _ _)
    obtain ⟨t, ht⟩ := Option.isSome_iff_exists.mp hx
    simp only [List.cons_append, loadAnimalLoop, ht]
    exact ih _ (fun y hy => hall y (List.mem_cons_of_mem _ hy))

/-- Mirror of `loadAnimalLoop_append` for `_load_crop_data`, whose row
loop sits in an identical `try`/`except` that logs and returns. -/
lemma loadCropLoop_append (r : CropRow) (rest : List CropRow)
    (hr : parseCropRow r = none) :
    ∀ (pre : List CropRow) (acc : List (String × CropTemplate)),
      (∀ x ∈ pre, (parseCropRow x).isSome) →
      loadCropLoop (pre ++ r :: rest) acc = ((loadCropLoop pre acc).1, false) := by
  intro pre
  induction pre with
  | nil =>
    intro acc _
    simp only [List.nil_append, loadCropLoop, hr]
  | cons x pre ih =>
    intro acc hall
    have hx := hall x (List.mem_cons_self _ _)
    obtain ⟨t, ht⟩ := Option.isSome_iff_exists.mp hx
    simp only [List.cons_append, loadCropLoop, ht]
    exact ih _ (fun y hy => hall y (List.mem_cons_of_mem _ hy))

/-- C5 counterexample: loading the barn rows `[cowRow, badGoatRow]` and the
farm rows `[wheatRow, badBeetRow]` (each second row has a non-numeric
`minutes`) raises in both loaders and is caught — both flags are false —
yet the cow and wheat templates parsed before the errors are kept, and
`__init__` proceeds to build a farm with that cow pool and wheat template:
the process starts with partial templates instead of failing fast with a
ConfigError. -/
theorem malformed_rows_partial_load :
    (loadAnimalLoop [cowRow, badGoatRow] []).2 = false
    ∧ _load_animal_data [cowRow, badGoatRow] = [("cow", cowT)]
    ∧ (loadCropLoop [wheatRow, badBeetRow] []).2 = false
    ∧ _load_crop_data [wheatRow, badBeetRow] = [("wheat", wheatT)]
    ∧ (farmFromRows [cowRow, badGoatRow] [wheatRow, badBeetRow]).animals
        = [("cow", List.replicate 6 ⟨AnimalState.IDLE, 0, cowT⟩)]
    ∧ (farmFromRows [cowRow, badGoatRow] [wheatRow, badBeetRow]).crop_templates
        = [("wheat", wheatT)] := by
  refine ⟨by decide, by decide, by decide, by decide, by decide, by decide⟩

/-- C5 (amended): on a malformed template source — animal or crop — the
loader catches the exception (only logging it), keeps exactly the
templates of the rows before the malformed one, and `__init__` continues:
the farm is built with those partial template sets — there is no
ConfigError and no fail-fast. -/
theorem malformed_rows_continue_with_prefix
    (preA : List AnimalRow) (rA : AnimalRow) (restA : List AnimalRow)
    (preC : List CropRow) (rC : CropRow) (restC : List CropRow)
    (hpreA : ∀ x ∈ preA, (parseAnimalRow x).isSome)
    (hrA : parseAnimalRow rA = none)
    (hpreC : ∀ x ∈ preC, (parseCropRow x).isSome)
    (hrC : parseCropRow rC = none) :
    _load_animal_data (preA ++ rA :: restA) = _load_animal_data preA
    ∧ (loadAnimalLoop (preA ++ rA :: restA) []).2 = false
    ∧ _load_crop_data (preC ++ rC :: restC) = _load_crop_data preC
    ∧ (loadCropLoop (preC ++ rC :: restC) []).2 = false
    ∧ (farmFromRows (preA ++ rA :: restA) (preC ++ rC :: restC)).animals
        = _initialize_animals (_load_animal_data preA)
    ∧ (farmFromRows (preA ++ rA :: restA) (preC ++ rC :: restC)).crop_templates
        = _load_crop_data preC := by
  have hA := loadAnimalLoop_append rA restA hrA preA [] hpreA
  have hC := loadCropLoop_append rC restC hrC preC [] hpreC
  refine ⟨?_, ?_, ?_, ?_, ?_, ?_⟩
  · simp only [_load_animal_data, hA]
  · simp only [hA]
  · simp only [_load_crop_data, hC]
  · simp only [hC]
  · simp only [farmFromRows, initFarm, _load_animal_data, hA]
  · simp only [farmFromRows, initFarm, _load_crop_data, hC]

theorem malformed_rows_continue_with_prefix_witness :
    ((∀ x ∈ [cowRow], (parseAnimalRow x).isSome) ∧ parseAnimalRow badGoatRow = none
      ∧ (∀ x ∈ [wheatRow], (parseCropRow x).isSome) ∧ parseCropRow badBeetRow = none)
    ∧ (_load_animal_data ([cowRow] ++ badGoatRow :: []) = _load_animal_data [cowRow]
      ∧ (loadAnimalLoop ([cowRow] ++ badGoatRow :: []) []).2 = false
      ∧ _load_crop_data ([wheatRow] ++ badBeetRow :: []) = _load_crop_data [wheatRow]
      ∧ (loadCropLoop ([wheatRow] ++ badBeetRow :: []) []).2 = false
      ∧ (farmFromRows ([cowRow] ++ badGoatRow :: []) ([wheatRow] ++ badBeetRow :: [])).animals
          = _initialize_animals (_load_animal_data [cowRow])
      ∧ (farmFromRows ([cowRow] ++ badGoatRow :: []) ([wheatRow] ++ badBeetRow :: [])).crop_templates
          = _load_crop_data [wheatRow]) :=
  ⟨⟨by decide, by decide, by decide, by decide⟩,
   malformed_rows_continue_with_prefix [cowRow] badGoatRow [] [wheatRow] badBeetRow []
     (by decide) (by decide) (by decide) (by decide)⟩

/-- C7: every command operation that returns a failure result leaves the
whole state (animal pools, crop grid, field grid, templates) exactly as it
was: validation and precondition failures never mutate state. -/
theorem failure_preserves_state (fc : FarmCore) (c : Cmd)
    (h : (runCmd c fc).2.success = false) : (runCmd c fc).1 = fc := by
  cases c with
  | feed sp n =>
    cases hl : lookupD fc.animals sp with
    | none => simp only [runCmd, feed_animals, hl]
    | some lst =>
      exfalso
      simp only [runCmd, feed_animals, hl] at h
      simp at h
  | harvestAnimal sp n =>
    cases hl : lookupD fc.animals sp with
    | none => simp only [runCmd, harvest_animals, hl]
    | some lst =>
      simp only [runCmd, harvest_animals, hl] at h ⊢
      have hmono := harvestAnimalsLoop_mono n lst 0 none
      by_cases hpos : 0 < (harvestAnimalsLoop n lst 0 none).2.1
      · rw [if_pos hpos] at h
        simp at h
      · rw [if_neg hpos]
        dsimp only
        have hz := harvestAnimalsLoop_zero n lst 0 none (by omega)
        rw [hz, updateAssoc_self fc.animals sp lst hl]
  | plantAny n ct =>
    cases hl : lookupD fc.crop_templates ct with
    | none => simp only [runCmd, plant_crops, hl]
    | some t =>
      exfalso
      simp only [runCmd, plant_crops, hl] at h
      simp at h
  | plantAt x y ct =>
    by_cases hb : 0 ≤ x ∧ x < 10 ∧ 0 ≤ y ∧ y < 10
    · simp only [runCmd, plant_crop] at h ⊢
      rw [if_pos hb] at h ⊢
      cases hl : lookupD fc.crop_templates ct with
      | none => simp only [hl]
      | some t =>
        cases hc : cellGet fc.crops y.toNat x.toNat none with
        | some cd => simp only [hl, hc]
        | none =>
          exfalso
          simp only [hl, hc] at h
          simp at h
    · simp only [runCmd, plant_crop]
      rw [if_neg hb]
  | harvestAny n =>
    simp only [runCmd, harvest_crops] at h ⊢
    have hmono := harvestGrid_mono n fc.crops fc.field_grid 0 []
    by_cases hpos : 0 < (harvestGrid n fc.crops fc.field_grid 0 []).2.2.1
    · rw [if_pos hpos] at h
      simp at h
    · rw [if_neg hpos]
      dsimp only
      have hz := harvestGrid_zero n fc.crops fc.field_grid 0 [] (by omega)
      rw [hz]
  | harvestAt x y =>
    by_cases hb : 0 ≤ x ∧ x < 10 ∧ 0 ≤ y ∧ y < 10
    · simp only [runCmd, harvest_crop] at h ⊢
      rw [if_pos hb] at h ⊢
      cases hc : cellGet fc.crops y.toNat x.toNat none with
      | none => simp only [hc]
      | some cd =>
        by_cases hr : cd.state = CropState.READY
        · exfalso
          simp only [hc] at h
          rw [if_pos hr] at h
          simp at h
        · simp only [hc]
          rw [if_neg hr]
    · simp only [runCmd, harvest_crop]
      rw [if_neg hb]

theorem failure_preserves_state_witness :
    (runCmd (Cmd.harvestAt 10 0) defaultFarm).2.success = false
    ∧ (runCmd (Cmd.harvestAt 10 0) defaultFarm).1 = defaultFarm :=
  ⟨by decide, failure_preserves_state defaultFarm (Cmd.harvestAt 10 0) (by decide)⟩

/-! ### Pool-capacity invariant machinery (C3) -/

lemma plant_crops_animals (fc : FarmCore) (n : Int) (ct : String) :
    (plant_crops fc n ct).1.animals = fc.animals := by
  cases hl : lookupD fc.crop_templates ct <;> simp [plant_crops, hl]

lemma plant_crop_animals (fc : FarmCore) (x y : Int) (ct : String) :
    (plant_crop fc x y ct).1.animals = fc.animals := by
  by_cases hb : 0 ≤ x ∧ x < 10 ∧ 0 ≤ y ∧ y < 10
  · simp only [plant_crop]
    rw [if_pos hb]
    cases hl : lookupD fc.crop_templates ct with
    | none => rfl
    | some t =>
      cases hc : cellGet fc.crops y.toNat x.toNat none <;> simp [hl, hc]
  · simp only [plant_crop]
    rw [if_neg hb]

lemma harvest_crops_animals (fc : FarmCore) (n : Int) :
    (harvest_crops fc n).1.animals = fc.animals := by
  simp only [harvest_crops]
  by_cases hpos : 0 < (harvestGrid n fc.crops fc.field_grid 0 []).2.2.1
  · rw [if_pos hpos]
  · rw [if_neg hpos]

lemma harvest_crop_animals (fc : FarmCore) (x y : Int) :
    (harvest_crop fc x y).1.animals = fc.animals := by
  by_cases hb : 0 ≤ x ∧ x < 10 ∧ 0 ≤ y ∧ y < 10
  · simp only [harvest_crop]
    rw [if_pos hb]
    cases hc : cellGet fc.crops y.toNat x.toNat none with
    | none => rfl
    | some cd =>
      by_cases hr : cd.state = CropState.READY
      · simp [hc, hr]
      · simp [hc, hr]
  · simp only [harvest_crop]
    rw [if_neg hb]

lemma initFarm_pools (ats : List (String × AnimalTemplate))
    (cts : List (String × CropTemplate)) :
    ∀ p ∈ (initFarm ats cts).animals, p.2.length = 6 := by
  intro p hp
  simp only [initFarm, _initialize_animals] at hp
  obtain ⟨q, _, rfl⟩ := List.mem_map.mp hp
  simp

lemma applyOp_pools (o : Op) (fc : FarmCore)
    (hall : ∀ p ∈ fc.animals, p.2.length = 6) :
    ∀ p ∈ (applyOp o fc).animals, p.2.length = 6 := by
  cases o with
  | tick =>
    intro p hp
    rw [show (applyOp Op.tick fc).animals
        = fc.animals.map (fun q => (q.1, q.2.map updateAnimal)) from rfl] at hp
    obtain ⟨q, hq, rfl⟩ := List.mem_map.mp hp
    simp only [List.length_map]
    exact hall q hq
  | cmd c =>
    cases c with
    | feed sp n =>
      intro p hp
      cases hl : lookupD fc.animals sp with
      | none =>
        simp only [applyOp, runCmd, feed_animals, hl] at hp
        exact hall p hp
      | some lst =>
        simp only [applyOp, runCmd, feed_animals, hl] at hp
        have hlen : (feedLoop n lst 0).1.length = 6 := by
          rw [feedLoop_length]
          exact hall (sp, lst) (lookupD_mem fc.animals sp lst hl)
        exact updateAssoc_forall (fun l => l.length = 6) fc.animals sp _ hall hlen p hp
    | harvestAnimal sp n =>
      intro p hp
      cases hl : lookupD fc.animals sp with
      | none =>
        simp only [applyOp, runCmd, harvest_animals, hl] at hp
        exact hall p hp
      | some lst =>
        simp only [applyOp, runCmd, harvest_animals, hl] at hp
        have hlen : (harvestAnimalsLoop n lst 0 none).1.length = 6 := by
          rw [harvestAnimalsLoop_length]
          exact hall (sp, lst) (lookupD_mem fc.animals sp lst hl)
        by_cases hpos : 0 < (harvestAnimalsLoop n lst 0 none).2.1
        · rw [if_pos hpos] at hp
          exact updateAssoc_forall (fun l => l.length = 6) fc.animals sp _ hall hlen p hp
        · rw [if_neg hpos] at hp
          exact updateAssoc_forall (fun l => l.length = 6) fc.animals sp _ hall hlen p hp
    | plantAny n ct =>
      intro p hp
      rw [show applyOp (Op.cmd (Cmd.plantAny n ct)) fc = (plant_crops fc n ct).1 from rfl,
        plant_crops_animals] at hp
      exact hall p hp
    | plantAt x y ct =>
      intro p hp
      rw [show applyOp (Op.cmd (Cmd.plantAt x y ct)) fc = (plant_crop fc x y ct).1 from rfl,
        plant_crop_animals] at hp
      exact hall p hp
    | harvestAny n =>
      intro p hp
      rw [show applyOp (Op.cmd (Cmd.harvestAny n)) fc = (harvest_crops fc n).1 from rfl,
        harvest_crops_animals] at hp
      exact hall p hp
    | harvestAt x y =>
      intro p hp
      rw [show applyOp (Op.cmd (Cmd.harvestAt x y)) fc = (harvest_crop fc x y).1 from rfl,
        harvest_crop_animals] at hp
      exact hall p hp

lemma applyOps_pools (ops : List Op) :
    ∀ fc : FarmCore, (∀ p ∈ fc.animals, p.2.length = 6) →
      ∀ p ∈ (applyOps ops fc).animals, p.2.length = 6 := by
  induction ops with
  | nil => intro fc h; simpa [applyOps] using h
  | cons o ops ih =>
    intro fc h
    rw [show applyOps (o :: ops) fc = applyOps ops (applyOp o fc) from rfl]
    exact ih (applyOp o fc) (applyOp_pools o fc h)

/-- C3: after any sequence of commands and ticks on a freshly initialized
farm, every species pool satisfies idle + growing + mature = 6, the pool
capacity fixed at construction: no operation creates, destroys, or puts a
slot outside the three states. -/
theorem animal_pool_partition_invariant
    (ats : List (String × AnimalTemplate)) (cts : List (String × CropTemplate))
    (ops : List Op) (sp : String) (lst : List AnimalData)
    (h : lookupD (applyOps ops (initFarm ats cts)).animals sp = some lst) :
    idleCount lst + growingCount lst + matureCount lst = 6 := by
  have hmem := lookupD_mem _ sp lst h
  have hlen := applyOps_pools ops (initFarm ats cts) (initFarm_pools ats cts) (sp, lst) hmem
  have hpart := counts_partition lst
  simp only at hlen
  omega

theorem animal_pool_partition_invariant_witness :
    lookupD (applyOps [Op.cmd (Cmd.feed "cow" 2), Op.tick]
        (initFarm [("cow", cowT)] [])).animals "cow"
      = some [⟨AnimalState.GROWING, 29, cowT⟩, ⟨AnimalState.GROWING, 29, cowT⟩,
              ⟨AnimalState.IDLE, 0, cowT⟩, ⟨AnimalState.IDLE, 0, cowT⟩,
              ⟨AnimalState.IDLE, 0, cowT⟩, ⟨AnimalState.IDLE, 0, cowT⟩]
    ∧ idleCount [⟨AnimalState.GROWING, 29, cowT⟩, ⟨AnimalState.GROWING, 29, cowT⟩,
              ⟨AnimalState.IDLE, 0, cowT⟩, ⟨AnimalState.IDLE, 0, cowT⟩,
              ⟨AnimalState.IDLE, 0, cowT⟩, ⟨AnimalState.IDLE, 0, cowT⟩]
        + growingCount [⟨AnimalState.GROWING, 29, cowT⟩, ⟨AnimalState.GROWING, 29, cowT⟩,
              ⟨AnimalState.IDLE, 0, cowT⟩, ⟨AnimalState.IDLE, 0, cowT⟩,
              ⟨AnimalState.IDLE, 0, cowT⟩, ⟨AnimalState.IDLE, 0, cowT⟩]
        + matureCount [⟨AnimalState.GROWING, 29, cowT⟩, ⟨AnimalState.GROWING, 29, cowT⟩,
              ⟨AnimalState.IDLE, 0, cowT⟩, ⟨AnimalState.IDLE, 0, cowT⟩,
              ⟨AnimalState.IDLE, 0, cowT⟩, ⟨AnimalState.IDLE, 0, cowT⟩] = 6 :=
  ⟨by decide,
   animal_pool_partition_invariant [("cow", cowT)] [] [Op.cmd (Cmd.feed "cow" 2), Op.tick]
     "cow" [⟨AnimalState.GROWING, 29, cowT⟩, ⟨AnimalState.GROWING, 29, cowT⟩,
              ⟨AnimalState.IDLE, 0, cowT⟩, ⟨AnimalState.IDLE, 0, cowT⟩,
              ⟨AnimalState.IDLE, 0, cowT⟩, ⟨AnimalState.IDLE, 0, cowT⟩] (by decide)⟩

/-! ### Grid cell machinery for the plant/harvest round trip (C2) -/

lemma getD_in_bounds {α : Type} (l : List α) (n : Nat) (d : α) (h : n < l.length) :
    l.getD n d = l[n] := by
  simp [List.getD_eq_getElem?_getD, List.getElem?_eq_getElem h]

lemma cellGet_cellSet_self {α : Type} (g : List (List α)) (y x : Nat) (v d : α)
    (hy : y < g.length) (hx : x < (g.getD y []).length) :
    cellGet (cellSet g y x v) y x d = v := by
  unfold cellGet cellSet
  have hylen : y < (g.set y ((g.getD y []).set x v)).length := by
    simpa using hy
  rw [getD_in_bounds _ _ _ hylen, List.getElem_set_self]
  have hxlen : x < ((g.getD y []).set x v).length := by
    simpa using hx
  rw [getD_in_bounds _ _ _ hxlen, List.getElem_set_self]

lemma row_len (g : List (List (Option CropData))) (y : Nat)
    (h2 : ∀ r ∈ g, r.length = 10) (hy : y < g.length) :
    (g.getD y []).length = 10 := by
  rw [getD_in_bounds _ _ _ hy]
  exact h2 _ (List.getElem_mem ..)

lemma shape_cellSet (g : List (List (Option CropData))) (y x : Nat) (v : Option CropData)
    (h1 : g.length = 10) (h2 : ∀ r ∈ g, r.length = 10) :
    (cellSet g y x v).length = 10 ∧ ∀ r ∈ cellSet g y x v, r.length = 10 := by
  by_cases hy : y < g.length
  · refine ⟨by simp [cellSet, h1], ?_⟩
    intro r hr
    rcases List.mem_or_eq_of_mem_set hr with h | h
    · exact h2 r h
    · subst h
      rw [List.length_set]
      exact row_len g y h2 hy
  · have he : cellSet g y x v = g := by
      unfold cellSet
      exact List.set_eq_of_length_le (by omega)
    rw [he]
    exact ⟨h1, h2⟩

lemma tick_crops (fc : FarmCore) :
    (tick fc).crops = fc.crops.map (fun row => row.map updateCropCell) := rfl

lemma cellGet_tick (fc : FarmCore) (y x : Nat)
    (hy : y < fc.crops.length) (hx : x < (fc.crops.getD y []).length) :
    cellGet (tick fc).crops y x none = updateCropCell (cellGet fc.crops y x none) := by
  rw [tick_crops]
  unfold cellGet
  have hy2 : y < (fc.crops.map (fun row => row.map updateCropCell)).length := by
    simpa using hy
  rw [getD_in_bounds _ _ _ hy2, List.getElem_map]
  have hx0 : x < (fc.crops[y]).length := by
    rwa [getD_in_bounds _ _ _ hy] at hx
  have hx2 : x < ((fc.crops[y]).map updateCropCell).length := by
    simpa using hx0
  rw [getD_in_bounds _ _ _ hx2, List.getElem_map]
  rw [getD_in_bounds _ _ _ hy, getD_in_bounds _ _ _ hx0]

lemma tick_shape (fc : FarmCore) (h1 : fc.crops.length = 10)
    (h2 : ∀ r ∈ fc.crops, r.length = 10) :
    (tick fc).crops.length = 10 ∧ ∀ r ∈ (tick fc).crops, r.length = 10 := by
  rw [tick_crops]
  refine ⟨by simpa using h1, ?_⟩
  intro r hr
  obtain ⟨q, hq, rfl⟩ := List.mem_map.mp hr
  simp [h2 q hq]

lemma ticks_cell_ready (t : CropTemplate) :
    ∀ (j : Nat) (fc : FarmCore) (y x : Nat),
      fc.crops.length = 10 → (∀ r ∈ fc.crops, r.length = 10) →
      y < 10 → x < 10 →
      cellGet fc.crops y x none = some ⟨CropState.PLANTED, (j : Int) + 1, t⟩ →
      cellGet (ticks (j + 1) fc).crops y x none = some ⟨CropState.READY, 0, t⟩
      ∧ (ticks (j + 1) fc).crops.length = 10
      ∧ ∀ r ∈ (ticks (j + 1) fc).crops, r.length = 10 := by
  intro j
  induction j with
  | zero =>
    intro fc y x h1 h2 hy hx hcell
    have hy' : y < fc.crops.length := by omega
    have hx' : x < (fc.crops.getD y []).length := by
      rw [row_len fc.crops y h2 hy']
      omega
    have hc := cellGet_tick fc y x hy' hx'
    rw [hcell] at hc
    have hup : updateCropCell (some ⟨CropState.PLANTED, ((0 : Nat) : Int) + 1, t⟩)
        = some ⟨CropState.READY, 0, t⟩ := by
      simp [updateCropCell]
    have hsh := tick_shape fc h1 h2
    exact ⟨by rw [show ticks 1 fc = tick fc from rfl, hc, hup], hsh.1, hsh.2⟩
  | succ j ih =>
    intro fc y x h1 h2 hy hx hcell
    have hy' : y < fc.crops.length := by omega
    have hx' : x < (fc.crops.getD y []).length := by
      rw [row_len fc.crops y h2 hy']
      omega
    have hc := cellGet_tick fc y x hy' hx'
    rw [hcell] at hc
    have hup : updateCropCell (some ⟨CropState.PLANTED, ((j + 1 : Nat) : Int) + 1, t⟩)
        = some ⟨CropState.PLANTED, (j : Int) + 1, t⟩ := by
      simp only [updateCropCell, if_true]
      rw [if_neg (by push_cast; omega)]
      have hc2 : ((j + 1 : Nat) : Int) + 1 - 1 = (j : Int) + 1 := by push_cast; ring
      rw [hc2]
    have hsh := tick_shape fc h1 h2
    rw [show ticks (j + 1 + 1) fc = ticks (j + 1) (tick fc) from rfl]
    exact ih (tick fc) y x hsh.1 hsh.2 hy hx (by rw [hc, hup])

/-- C2: planting a known crop `ct` (template `t`, total duration
`t.minutes*60 + t.seconds ≥ 1`) on an empty in-bounds patch succeeds; an
immediate `harvest_crop` fails with "Crop is not ready for harvest"; once
the timer's worth of ticks has run, `harvest_crop` succeeds, returns the
crop identifier, and the patch is empty again. -/
theorem plant_then_harvest_roundtrip
    (fc : FarmCore) (x y : Int) (ct : String) (t : CropTemplate)
    (hb : 0 ≤ x ∧ x < 10 ∧ 0 ≤ y ∧ y < 10)
    (hshape : cropsShape fc)
    (ht : lookupD fc.crop_templates ct = some t)
    (hname : t.crop = ct)
    (hempty : cellGet fc.crops y.toNat x.toNat none = none)
    (hd : 1 ≤ t.minutes * 60 + t.seconds) :
    (plant_crop fc x y ct).2.success = true
    ∧ (harvest_crop (plant_crop fc x y ct).1 x y).2.success = false
    ∧ (harvest_crop (plant_crop fc x y ct).1 x y).2.message
        = "Crop is not ready for harvest"
    ∧ (harvest_crop (ticks (t.minutes * 60 + t.seconds).toNat
        (plant_crop fc x y ct).1) x y).2.success = true
    ∧ (harvest_crop (ticks (t.minutes * 60 + t.seconds).toNat
        (plant_crop fc x y ct).1) x y).2.crop = some ct
    ∧ cellGet (harvest_crop (ticks (t.minutes * 60 + t.seconds).toNat
        (plant_crop fc x y ct).1) x y).1.crops y.toNat x.toNat none = none := by
  obtain ⟨h1, h2⟩ := hshape
  have hyN : y.toNat < 10 := by omega
  have hxN : x.toNat < 10 := by omega
  have hy' : y.toNat < fc.crops.length := by omega
  have hx' : x.toNat < (fc.crops.getD y.toNat []).length := by
    rw [row_len fc.crops y.toNat h2 hy']
    omega
  have hplant : (plant_crop fc x y ct).1.crops
      = cellSet fc.crops y.toNat x.toNat (some (newCropData t)) := by
    simp only [plant_crop]
    rw [if_pos hb]
    simp only [ht, hempty]
  have hsucc : (plant_crop fc x y ct).2.success = true := by
    simp only [plant_crop]
    rw [if_pos hb]
    simp only [ht, hempty]
  have hsh1 := shape_cellSet fc.crops y.toNat x.toNat (some (newCropData t)) h1 h2
  have hy1 : y.toNat < (plant_crop fc x y ct).1.crops.length := by
    rw [hplant, hsh1.1]
    omega
  have hx1 : x.toNat < ((plant_crop fc x y ct).1.crops.getD y.toNat []).length := by
    rw [hplant, row_len _ y.toNat hsh1.2 (by rw [hsh1.1]; omega)]
    omega
  have hcell1 : cellGet (plant_crop fc x y ct).1.crops y.toNat x.toNat none
      = some (newCropData t) := by
    rw [hplant]
    exact cellGet_cellSet_self fc.crops y.toNat x.toNat _ none hy' hx'
  refine ⟨hsucc, ?_, ?_, ?_⟩
  · simp only [harvest_crop]
    rw [if_pos hb]
    simp only [hcell1]
    rw [if_neg (by simp [newCropData])]
  · simp only [harvest_crop]
    rw [if_pos hb]
    simp only [hcell1]
    rw [if_neg (by simp [newCropData])]
  · set n := (t.minutes * 60 + t.seconds).toNat with hn
    have hn1 : n = (n - 1) + 1 := by omega
    have hcast : ((n - 1 : Nat) : Int) + 1 = t.minutes * 60 + t.seconds := by omega
    have hcellcast : cellGet (plant_crop fc x y ct).1.crops y.toNat x.toNat none
        = some ⟨CropState.PLANTED, ((n - 1 : Nat) : Int) + 1, t⟩ := by
      rw [hcell1]
      simp [newCropData, hcast]
    have hready := ticks_cell_ready t (n - 1) (plant_crop fc x y ct).1 y.toNat x.toNat
      (by rw [hplant]; exact hsh1.1) (by rw [hplant]; exact hsh1.2) hyN hxN hcellcast
    rw [← hn1] at hready
    obtain ⟨hcellR, hlen2, hrow2⟩ := hready
    have hharv : (harvest_crop (ticks n (plant_crop fc x y ct).1) x y).2.success = true
        ∧ (harvest_crop (ticks n (plant_crop fc x y ct).1) x y).2.crop
            = some t.crop
        ∧ (harvest_crop (ticks n (plant_crop fc x y ct).1) x y).1.crops
            = cellSet (ticks n (plant_crop fc x y ct).1).crops y.toNat x.toNat none := by
      simp only [harvest_crop]
      rw [if_pos hb]
      simp only [hcellR, if_true]
      exact ⟨trivial, trivial, trivial⟩
    refine ⟨hharv.1, by rw [hharv.2.1, hname], ?_⟩
    rw [hharv.2.2]
    exact cellGet_cellSet_self _ y.toNat x.toNat _ none (by rw [hlen2]; omega)
      (by rw [row_len _ y.toNat hrow2 (by rw [hlen2]; omega)]; omega)

theorem plant_then_harvest_roundtrip_witness :
    (((0 : Int) ≤ 3 ∧ (3 : Int) < 10 ∧ (0 : Int) ≤ 4 ∧ (4 : Int) < 10)
      ∧ cropsShape defaultFarm
      ∧ lookupD defaultFarm.crop_templates "wheat" = some wheatT
      ∧ wheatT.crop = "wheat"
      ∧ cellGet defaultFarm.crops (4 : Int).toNat (3 : Int).toNat none = none
      ∧ 1 ≤ wheatT.minutes * 60 + wheatT.seconds)
    ∧ ((plant_crop defaultFarm 3 4 "wheat").2.success = true
      ∧ (harvest_crop (plant_crop defaultFarm 3 4 "wheat").1 3 4).2.success = false
      ∧ (harvest_crop (plant_crop defaultFarm 3 4 "wheat").1 3 4).2.message
          = "Crop is not ready for harvest"
      ∧ (harvest_crop (ticks (wheatT.minutes * 60 + wheatT.seconds).toNat
          (plant_crop defaultFarm 3 4 "wheat").1) 3 4).2.success = true
      ∧ (harvest_crop (ticks (wheatT.minutes * 60 + wheatT.seconds).toNat
          (plant_crop defaultFarm 3 4 "wheat").1) 3 4).2.crop = some "wheat"
      ∧ cellGet (harvest_crop (ticks (wheatT.minutes * 60 + wheatT.seconds).toNat
          (plant_crop defaultFarm 3 4 "wheat").1) 3 4).1.crops
          (4 : Int).toNat (3 : Int).toNat none = none) :=
  ⟨⟨by decide, ⟨by decide, by decide⟩, by decide, by decide, by decide, by decide⟩,
   plant_then_harvest_roundtrip defaultFarm 3 4 "wheat" wheatT
     (by decide) ⟨by decide, by decide⟩ (by decide) (by decide) (by decide) (by decide)⟩
